import Mathlib

/-!
Verification of the InsightBoard backend core mechanisms: stateless JWT
authentication (src/backend/src/auth.rs), the Redis cache-aside layer
(src/backend/src/cache.rs), the error-to-HTTP mapping
(src/backend/src/error.rs), and the per-provider widget fetch handlers
(src/backend/src/widgets/{crypto,weather,news,github}.rs).

The Rust code is shallowly embedded: JSON values become an inductive
`Json` (numeric values carried as integers), the Redis store becomes an
explicit association-list state, outbound HTTP becomes an explicit
`HttpResult` parameter, and each async handler becomes a pure function
from its inputs (query, config, cache state, HTTP outcome) to a
`HandlerOutput` carrying the result, an observable trace (cache probed,
outbound fetch performed, cache written) and the post-state of the cache.
Cryptographic primitives (Argon2, HMAC-SHA256) are idealized as
collision-free functions of their inputs, as noted at their definitions.
-/

namespace InsightBoard

/-! ## JSON values (model of serde_json::Value) -/

/-- Model of serde_json::Value. Numbers are carried as integers: the claims
checked here only move numeric fields around or default them, so the exact
float carrier is irrelevant. -/
inductive Json where
  | null
  | bool (b : Bool)
  | num (n : Int)
  | str (s : String)
  | arr (elems : List Json)
  | obj (fields : List (String × Json))

/-- First-match lookup in a JSON object's field list (serde_json maps). -/
def lookupField : List (String × Json) → String → Option Json
  | [], _ => none
  | (k, v) :: rest, key => if k = key then some v else lookupField rest key

/-- Model of serde_json Value indexing by string key: returns Null when the
value is not an object or the key is absent. -/
def Json.index (j : Json) (key : String) : Json :=
  match j with
  | .obj fields => (lookupField fields key).getD .null
  | _ => .null

/-- Model of serde_json Value indexing by usize: returns Null when the value
is not an array or the position is out of bounds. -/
def Json.idx (j : Json) (i : Nat) : Json :=
  match j with
  | .arr elems => (elems.get? i).getD .null
  | _ => .null

/-- Model of Value::as_f64 (numeric carrier). -/
def Json.asF64 : Json → Option Int
  | .num n => some n
  | _ => none

/-- Model of Value::as_i64 (numeric carrier). -/
def Json.asI64 : Json → Option Int
  | .num n => some n
  | _ => none

/-- Model of Value::as_str. -/
def Json.asStr : Json → Option String
  | .str s => some s
  | _ => none

/-- Model of Value::as_array. -/
def Json.asArray : Json → Option (List Json)
  | .arr elems => some elems
  | _ => none

/-- Model of Value::as_object. -/
def Json.asObject : Json → Option (List (String × Json))
  | .obj fields => some fields
  | _ => none

/-! ## AppError and its HTTP rendering (src/backend/src/error.rs) -/

/-- The application error enum of error.rs. Variants that carry a source
error (sqlx, redis) carry its rendered message here. -/
inductive AppError where
  | database (msg : String)
  | redis (msg : String)
  | auth (msg : String)
  | validation (msg : String)
  | notFound (msg : String)
  | unauthorized
  | forbidden
  | externalApi (msg : String)
  | internal (msg : String)
deriving DecidableEq, Repr

/-- IntoResponse for AppError (error.rs lines 39-71): the HTTP status code
and the string placed in the JSON body as the value of the error key. -/
def AppError.into_response : AppError → Nat × String
  | .database _ => (500, "Database error occurred")
  | .redis _ => (500, "Cache error occurred")
  | .auth msg => (401, msg)
  | .validation msg => (400, msg)
  | .notFound msg => (404, msg)
  | .unauthorized => (401, "Unauthorized")
  | .forbidden => (403, "Forbidden")
  | .externalApi _ => (502, "External service error")
  | .internal _ => (500, "Internal server error")

/-! ## JWT issuance and validation (src/backend/src/auth.rs lines 61-93) -/

/-- The JWT claims struct of auth.rs (timestamps as seconds since epoch). -/
structure Claims where
  sub : String
  email : String
  exp : Nat
  iat : Nat
deriving DecidableEq, Repr

/-- A token string as seen by jsonwebtoken::decode. A structurally valid
token is its claims plus the HMAC key that produced its signature; the MAC
is idealized as collision-free, so signature verification against `secret`
succeeds exactly when the token was signed with `secret`. Structurally
invalid strings are the `malformed` constructor. -/
inductive TokenInput where
  | malformed (desc : String)
  | signed (claims : Claims) (key : String)
deriving DecidableEq, Repr

/-- chrono::Duration::days(7) in seconds. -/
def secondsIn7Days : Nat := 7 * 86400

/-- generate_token (auth.rs lines 61-81): stamps iat = now,
exp = now + 7 days, signs with the given secret. -/
def generate_token (user_id : String) (email : String) (secret : String) (now : Nat) : TokenInput :=
  .signed { sub := user_id, email := email, exp := now + secondsIn7Days, iat := now } secret

/-- The jsonwebtoken error kinds reachable from validate_token. -/
inductive JwtErrorKind where
  | invalidToken
  | invalidSignature
  | expiredSignature
deriving DecidableEq, Repr

/-- Display of a jsonwebtoken error (its kind's debug name). -/
def JwtErrorKind.display : JwtErrorKind → String
  | .invalidToken => "InvalidToken"
  | .invalidSignature => "InvalidSignature"
  | .expiredSignature => "ExpiredSignature"

/-- jsonwebtoken::Validation::default() keeps a 60-second clock-skew leeway
on the exp check (Validation field leeway, default 60). -/
def jwtDefaultLeeway : Nat := 60

/-- jsonwebtoken::decode with Validation::default(): structural parse, then
signature verification, then expiry validation, which rejects exactly when
exp < now - leeway (u64 arithmetic, modelled by truncated Nat subtraction). -/
def jwt_decode (tok : TokenInput) (secret : String) (now : Nat) : Except JwtErrorKind Claims :=
  match tok with
  | .malformed _ => .error .invalidToken
  | .signed claims key =>
    if key = secret then
      if claims.exp < now - jwtDefaultLeeway then .error .expiredSignature
      else .ok claims
    else .error .invalidSignature

/-- validate_token (auth.rs lines 84-93): any decode error becomes
AppError::Auth with the rendered jsonwebtoken error appended to the
message prefix. -/
def validate_token (tok : TokenInput) (secret : String) (now : Nat) : Except AppError Claims :=
  match jwt_decode tok secret now with
  | .ok c => .ok c
  | .error e => .error (.auth ("Invalid token: " ++ e.display))

/-! ## Password hashing (src/backend/src/auth.rs lines 38-58) -/

/-- Idealization of the Argon2 key-derivation digest as a collision-free
function of (salt, password): two (salt, password) pairs collide exactly
when they are equal. Real Argon2 satisfies this up to negligible
probability. -/
def argon2Digest (salt : Nat) (password : String) : String × Nat :=
  (password, salt)

/-- A parsed PHC hash string: the embedded salt and the embedded digest. -/
structure PasswordHashString where
  salt : Nat
  digest : String × Nat
deriving DecidableEq, Repr

/-- hash_password (auth.rs lines 38-48): generates a fresh random salt
(passed explicitly here) and returns the encoding embedding salt and
digest. -/
def hash_password (password : String) (salt : Nat) : PasswordHashString :=
  { salt := salt, digest := argon2Digest salt password }

/-- A hash string as seen by PasswordHash::new: either structurally
malformed or a parsed PHC encoding. -/
inductive HashInput where
  | malformed (s : String)
  | parsed (h : PasswordHashString)

/-- verify_password (auth.rs lines 51-58): a malformed hash string is an
InternalError; otherwise the digest is re-derived with the embedded salt
and compared, a non-match being the boolean false, not an error. -/
def verify_password (password : String) (input : HashInput) : Except AppError Bool :=
  match input with
  | .malformed s => .error (.internal ("Failed to parse password hash: " ++ s))
  | .parsed h => .ok (decide (argon2Digest h.salt password = h.digest))

/-! ## The Redis cache (src/backend/src/cache.rs) -/

/-- The two failure classes of Cache::get: the connection to the store
cannot be obtained, or the stored text fails to deserialize into the
caller's expected shape. -/
inductive CacheError where
  | connection
  | deserialization
deriving DecidableEq, Repr

/-- The external key-value store as seen by one handler call: either
unreachable, or a map from keys to the JSON values their stored text
parses to. An entry's presence models an unexpired entry; expiry itself is
delegated to the external store. -/
inductive CacheState where
  | unreachable
  | store (entries : List (String × Json))

/-- First-match lookup among the store entries. -/
def lookupEntry : List (String × Json) → String → Option Json
  | [], _ => none
  | (k, v) :: rest, key => if k = key then some v else lookupEntry rest key

/-- Cache::get (cache.rs lines 28-42), specialized by the caller's
deserializer: connection failure is an error, an absent key is Ok(None),
a present key deserializes or is an error. -/
def Cache.get (dec : Json → Option α) (st : CacheState) (key : String) :
    Except CacheError (Option α) :=
  match st with
  | .unreachable => .error .connection
  | .store entries =>
    match lookupEntry entries key with
    | none => .ok none
    | some j =>
      match dec j with
      | none => .error .deserialization
      | some v => .ok (some v)

/-- Cache::set (cache.rs lines 44-53): serializes and writes with expiry,
overwriting the key. Returns the new store state and whether the write
succeeded; on an unreachable store the state is unchanged and the failure
is reported to the caller (who swallows it). The TTL only parameterizes
the external expiry and does not affect the visible state. -/
def Cache.set (st : CacheState) (key : String) (value : Json) (_ttl : Nat) :
    CacheState × Bool :=
  match st with
  | .unreachable => (.unreachable, false)
  | .store entries => (.store ((key, value) :: entries), true)

/-- The .ok().flatten() idiom every widget handler applies to Cache::get:
both failure classes and the absent key collapse to None. -/
def probeCache (dec : Json → Option α) (st : CacheState) (key : String) : Option α :=
  (Cache.get dec st key).toOption.join

/-! ## HTTP and handler plumbing shared by the widget handlers -/

/-- The outcome of the one outbound reqwest call a handler performs:
a transport failure, or a response with a status code and a body
(None when the body is not parseable JSON). -/
inductive HttpResult where
  | transportError (msg : String)
  | response (status : Nat) (body : Option Json)

/-- reqwest StatusCode::is_success: the 2xx range. -/
def httpSuccess (status : Nat) : Bool :=
  200 ≤ status && status < 300

/-- Observable side effects of one handler call: whether the cache was
consulted, whether the outbound fetch was performed, and whether a cache
write succeeded. -/
structure FetchTrace where
  cacheProbed : Bool
  fetched : Bool
  cacheWrote : Bool
deriving DecidableEq, Repr

/-- The full outcome of one handler call: the response value or error, the
trace, and the cache state after the call. -/
structure HandlerOutput (α : Type) where
  result : Except AppError α
  trace : FetchTrace
  cache : CacheState

/-- Deserialization of a JSON sequence, element-wise and strict, as serde
does for Vec. -/
def decodeAll (dec : Json → Option α) : List Json → Option (List α)
  | [] => some []
  | j :: rest =>
    match dec j with
    | none => none
    | some v =>
      match decodeAll dec rest with
      | none => none
      | some vs => some (v :: vs)

/-- Serde treatment of an Option String field: absent or null is None, a
string is Some, any other shape is a deserialization error. -/
def decodeOptStr (fields : List (String × Json)) (key : String) : Option (Option String) :=
  match lookupField fields key with
  | none => some none
  | some .null => some none
  | some (.str s) => some (some s)
  | some _ => none

/-! ## Crypto widget (src/backend/src/widgets/crypto.rs) -/

/-- CryptoPrice (crypto.rs lines 16-23), numeric carrier as in Json. -/
structure CryptoPrice where
  symbol : String
  name : String
  price : Int
  change_24h : Int
  change_percentage_24h : Int
deriving DecidableEq, Repr

/-- Serde serialization of CryptoPrice. -/
def CryptoPrice.toJson (p : CryptoPrice) : Json :=
  .obj [("symbol", .str p.symbol), ("name", .str p.name), ("price", .num p.price),
        ("change_24h", .num p.change_24h),
        ("change_percentage_24h", .num p.change_percentage_24h)]

/-- Serde deserialization of CryptoPrice: every field required with its
type; unknown fields ignored. -/
def CryptoPrice.fromJson (j : Json) : Option CryptoPrice :=
  match j with
  | .obj fields => do
    let symbol ← (lookupField fields "symbol").bind Json.asStr
    let name ← (lookupField fields "name").bind Json.asStr
    let price ← (lookupField fields "price").bind Json.asF64
    let change ← (lookupField fields "change_24h").bind Json.asF64
    let changePct ← (lookupField fields "change_percentage_24h").bind Json.asF64
    some { symbol := symbol, name := name, price := price,
           change_24h := change, change_percentage_24h := changePct }
  | _ => none

/-- Serde serialization of a Vec of CryptoPrice. -/
def encodeCryptoPrices (ps : List CryptoPrice) : Json :=
  .arr (ps.map CryptoPrice.toJson)

/-- Serde deserialization of a Vec of CryptoPrice. -/
def decodeCryptoPrices : Json → Option (List CryptoPrice)
  | .arr elems => decodeAll CryptoPrice.fromJson elems
  | _ => none

/-- The loop body of crypto.rs lines 61-72: a queried symbol contributes an
entry exactly when the response object has its lowercased id as an object,
absent numeric fields defaulting to zero; both change fields read the one
upstream field usd_24h_change. -/
def cryptoPriceOfSymbol (json : Json) (symbol : String) : Option CryptoPrice :=
  let id := symbol.toLower
  match (json.index id).asObject with
  | some data => some
      { symbol := symbol.toUpper,
        name := symbol,
        price := ((lookupField data "usd").getD .null).asF64.getD 0,
        change_24h := ((lookupField data "usd_24h_change").getD .null).asF64.getD 0,
        change_percentage_24h := ((lookupField data "usd_24h_change").getD .null).asF64.getD 0 }
  | none => none

/-- fetch_crypto_data (crypto.rs lines 25-78): cache probe with
.ok().flatten(), immediate return on hit; otherwise one outbound call,
failing the request on transport error, non-2xx status, or unparseable
body, and on success mapping each queried symbol and best-effort caching
the list for 300 seconds. -/
def fetch_crypto_data (symbols : String) (cache : CacheState) (http : HttpResult) :
    HandlerOutput (List CryptoPrice) :=
  let cache_key := "crypto:" ++ symbols
  match probeCache decodeCryptoPrices cache cache_key with
  | some cached => ⟨.ok cached, ⟨true, false, false⟩, cache⟩
  | none =>
    let symbols_list := symbols.splitOn ","
    match http with
    | .transportError e =>
      ⟨.error (.externalApi ("CoinGecko API error: " ++ e)), ⟨true, true, false⟩, cache⟩
    | .response status body =>
      if httpSuccess status = false then
        ⟨.error (.externalApi ("CoinGecko API returned status: " ++ toString status)),
         ⟨true, true, false⟩, cache⟩
      else
        match body with
        | none =>
          ⟨.error (.externalApi "Failed to parse crypto response: invalid JSON"),
           ⟨true, true, false⟩, cache⟩
        | some json =>
          let prices := symbols_list.filterMap (cryptoPriceOfSymbol json)
          let setRes := Cache.set cache cache_key (encodeCryptoPrices prices) 300
          ⟨.ok prices, ⟨true, true, setRes.2⟩, setRes.1⟩

/-! ## Weather widget (src/backend/src/widgets/weather.rs) -/

/-- WeatherData (weather.rs lines 11-19); the f64/i32 numeric fields share
the integer carrier of Json. -/
structure WeatherData where
  temp : Int
  feels_like : Int
  humidity : Int
  description : String
  icon : String
  city_name : String
deriving DecidableEq, Repr

/-- Serde serialization of WeatherData. -/
def WeatherData.toJson (w : WeatherData) : Json :=
  .obj [("temp", .num w.temp), ("feels_like", .num w.feels_like),
        ("humidity", .num w.humidity), ("description", .str w.description),
        ("icon", .str w.icon), ("city_name", .str w.city_name)]

/-- Serde deserialization of WeatherData: every field required. -/
def WeatherData.fromJson (j : Json) : Option WeatherData :=
  match j with
  | .obj fields => do
    let temp ← (lookupField fields "temp").bind Json.asF64
    let feels ← (lookupField fields "feels_like").bind Json.asF64
    let humidity ← (lookupField fields "humidity").bind Json.asI64
    let description ← (lookupField fields "description").bind Json.asStr
    let icon ← (lookupField fields "icon").bind Json.asStr
    let city ← (lookupField fields "city_name").bind Json.asStr
    some { temp := temp, feels_like := feels, humidity := humidity,
           description := description, icon := icon, city_name := city }
  | _ => none

/-- The response mapping of weather.rs lines 55-62: every field of the
upstream payload defaults (zero or empty string) when absent or of the
wrong type; the city name falls back to the queried city. -/
def buildWeatherData (city : String) (json : Json) : WeatherData :=
  { temp := ((json.index "main").index "temp").asF64.getD 0,
    feels_like := ((json.index "main").index "feels_like").asF64.getD 0,
    humidity := ((json.index "main").index "humidity").asI64.getD 0,
    description := (((json.index "weather").idx 0).index "description").asStr.getD "",
    icon := (((json.index "weather").idx 0).index "icon").asStr.getD "",
    city_name := (json.index "name").asStr.getD city }

/-- fetch_weather_data (weather.rs lines 21-67): fails with InternalError
when the API key is not configured, before any cache access; then the
cache-aside shape of fetch_crypto_data with a 600 second TTL. -/
def fetch_weather_data (api_key : Option String) (city : String)
    (cache : CacheState) (http : HttpResult) : HandlerOutput WeatherData :=
  match api_key with
  | none =>
    ⟨.error (.internal "OpenWeather API key not configured"), ⟨false, false, false⟩, cache⟩
  | some _ =>
    let cache_key := "weather:" ++ city
    match probeCache WeatherData.fromJson cache cache_key with
    | some cached => ⟨.ok cached, ⟨true, false, false⟩, cache⟩
    | none =>
      match http with
      | .transportError e =>
        ⟨.error (.externalApi ("OpenWeather API error: " ++ e)), ⟨true, true, false⟩, cache⟩
      | .response status body =>
        if httpSuccess status = false then
          ⟨.error (.externalApi ("OpenWeather API returned status: " ++ toString status)),
           ⟨true, true, false⟩, cache⟩
        else
          match body with
          | none =>
            ⟨.error (.externalApi "Failed to parse weather response: invalid JSON"),
             ⟨true, true, false⟩, cache⟩
          | some json =>
            let weather_data := buildWeatherData city json
            let setRes := Cache.set cache cache_key weather_data.toJson 600
            ⟨.ok weather_data, ⟨true, true, setRes.2⟩, setRes.1⟩

/-! ## News widget (src/backend/src/widgets/news.rs) -/

/-- NewsArticle (news.rs lines 16-24). -/
structure NewsArticle where
  title : String
  description : Option String
  url : String
  source : String
  published_at : String
  url_to_image : Option String
deriving DecidableEq, Repr

/-- Serde serialization of NewsArticle (None becomes null). -/
def NewsArticle.toJson (a : NewsArticle) : Json :=
  .obj [("title", .str a.title),
        ("description", (a.description.map Json.str).getD .null),
        ("url", .str a.url), ("source", .str a.source),
        ("published_at", .str a.published_at),
        ("url_to_image", (a.url_to_image.map Json.str).getD .null)]

/-- Serde deserialization of NewsArticle: String fields required, Option
String fields tolerate absence and null. -/
def NewsArticle.fromJson (j : Json) : Option NewsArticle :=
  match j with
  | .obj fields => do
    let title ← (lookupField fields "title").bind Json.asStr
    let description ← decodeOptStr fields "description"
    let url ← (lookupField fields "url").bind Json.asStr
    let source ← (lookupField fields "source").bind Json.asStr
    let published ← (lookupField fields "published_at").bind Json.asStr
    let urlToImage ← decodeOptStr fields "url_to_image"
    some { title := title, description := description, url := url,
           source := source, published_at := published, url_to_image := urlToImage }
  | _ => none

/-- Serde serialization of a Vec of NewsArticle. -/
def encodeNewsArticles (articles : List NewsArticle) : Json :=
  .arr (articles.map NewsArticle.toJson)

/-- Serde deserialization of a Vec of NewsArticle. -/
def decodeNewsArticles : Json → Option (List NewsArticle)
  | .arr elems => decodeAll NewsArticle.fromJson elems
  | _ => none

/-- The per-article mapping of news.rs lines 64-71: every field defaults
when absent or malformed (Unknown for the source name, None for the two
optional fields, empty string otherwise). -/
def newsArticleOfJson (a : Json) : NewsArticle :=
  { title := (a.index "title").asStr.getD "",
    description := (a.index "description").asStr,
    url := (a.index "url").asStr.getD "",
    source := ((a.index "source").index "name").asStr.getD "Unknown",
    published_at := (a.index "publishedAt").asStr.getD "",
    url_to_image := (a.index "urlToImage").asStr }

/-- fetch_news_data (news.rs lines 26-78): fails with InternalError when
the API key is not configured, before any cache access; then the shared
cache-aside shape, mapping the articles array (absent or non-array
defaulting to empty) with a 900 second TTL. -/
def fetch_news_data (api_key : Option String) (topic : String)
    (cache : CacheState) (http : HttpResult) : HandlerOutput (List NewsArticle) :=
  match api_key with
  | none =>
    ⟨.error (.internal "NewsAPI key not configured"), ⟨false, false, false⟩, cache⟩
  | some _ =>
    let cache_key := "news:" ++ topic
    match probeCache decodeNewsArticles cache cache_key with
    | some cached => ⟨.ok cached, ⟨true, false, false⟩, cache⟩
    | none =>
      match http with
      | .transportError e =>
        ⟨.error (.externalApi ("NewsAPI error: " ++ e)), ⟨true, true, false⟩, cache⟩
      | .response status body =>
        if httpSuccess status = false then
          ⟨.error (.externalApi ("NewsAPI returned status: " ++ toString status)),
           ⟨true, true, false⟩, cache⟩
        else
          match body with
          | none =>
            ⟨.error (.externalApi "Failed to parse news response: invalid JSON"),
             ⟨true, true, false⟩, cache⟩
          | some json =>
            let articles := ((json.index "articles").asArray.getD []).map newsArticleOfJson
            let setRes := Cache.set cache cache_key (encodeNewsArticles articles) 900
            ⟨.ok articles, ⟨true, true, setRes.2⟩, setRes.1⟩

/-! ## GitHub widget (src/backend/src/widgets/github.rs) -/

/-- GitHubRepo (github.rs lines 20-23). -/
structure GitHubRepo where
  name : String
deriving DecidableEq, Repr

/-- GitHubEvent (github.rs lines 11-18); event_type is serde-renamed from
the JSON key type. -/
structure GitHubEvent where
  id : String
  event_type : String
  repo : GitHubRepo
  created_at : String
deriving DecidableEq, Repr

/-- Serde deserialization of GitHubRepo: the name field is required. -/
def GitHubRepo.fromJson (j : Json) : Option GitHubRepo :=
  match j with
  | .obj fields => do
    let name ← (lookupField fields "name").bind Json.asStr
    some { name := name }
  | _ => none

/-- Serde deserialization of GitHubEvent: every field required (no serde
defaults and no Option fields), so an absent or malformed field fails the
deserialization of the whole event. -/
def GitHubEvent.fromJson (j : Json) : Option GitHubEvent :=
  match j with
  | .obj fields => do
    let id ← (lookupField fields "id").bind Json.asStr
    let eventType ← (lookupField fields "type").bind Json.asStr
    let repo ← (lookupField fields "repo").bind GitHubRepo.fromJson
    let createdAt ← (lookupField fields "created_at").bind Json.asStr
    some { id := id, event_type := eventType, repo := repo, created_at := createdAt }
  | _ => none

/-- Serde serialization of GitHubRepo. -/
def GitHubRepo.toJson (r : GitHubRepo) : Json :=
  .obj [("name", .str r.name)]

/-- Serde serialization of GitHubEvent. -/
def GitHubEvent.toJson (e : GitHubEvent) : Json :=
  .obj [("id", .str e.id), ("type", .str e.event_type),
        ("repo", e.repo.toJson), ("created_at", .str e.created_at)]

/-- Serde deserialization of a Vec of GitHubEvent, as performed by
response.json in github.rs lines 57-58. -/
def decodeGitHubEvents : Json → Option (List GitHubEvent)
  | .arr elems => decodeAll GitHubEvent.fromJson elems
  | _ => none

/-- Serde serialization of a Vec of GitHubEvent. -/
def encodeGitHubEvents (events : List GitHubEvent) : Json :=
  .arr (events.map GitHubEvent.toJson)

/-- fetch_github_data (github.rs lines 25-64): the cache-aside shape, but
the successful response body is deserialized strictly into Vec of
GitHubEvent, any failure (unparseable JSON or an absent or malformed
required field) failing the whole request with ExternalApiError. The API
token only decorates the outbound request headers. -/
def fetch_github_data (_api_token : Option String) (username : String)
    (cache : CacheState) (http : HttpResult) : HandlerOutput (List GitHubEvent) :=
  let cache_key := "github:" ++ username
  match probeCache decodeGitHubEvents cache cache_key with
  | some cached => ⟨.ok cached, ⟨true, false, false⟩, cache⟩
  | none =>
    match http with
    | .transportError e =>
      ⟨.error (.externalApi ("GitHub API error: " ++ e)), ⟨true, true, false⟩, cache⟩
    | .response status body =>
      if httpSuccess status = false then
        ⟨.error (.externalApi ("GitHub API returned status: " ++ toString status)),
         ⟨true, true, false⟩, cache⟩
      else
        match body.bind decodeGitHubEvents with
        | none =>
          ⟨.error (.externalApi "Failed to parse GitHub response: missing or malformed field"),
           ⟨true, true, false⟩, cache⟩
        | some events =>
          let setRes := Cache.set cache cache_key (encodeGitHubEvents events) 300
          ⟨.ok events, ⟨true, true, setRes.2⟩, setRes.1⟩

/-! ## Helper lemmas -/

theorem probeCache_unreachable (dec : Json → Option α) (key : String) :
    probeCache dec .unreachable key = none := rfl

theorem probeCache_miss (dec : Json → Option α) (entries : List (String × Json))
    (key : String) (h : lookupEntry entries key = none) :
    probeCache dec (.store entries) key = none := by
  simp [probeCache, Cache.get, h, Except.toOption, Option.join]

theorem probeCache_corrupt (dec : Json → Option α) (entries : List (String × Json))
    (key : String) (j : Json) (h : lookupEntry entries key = some j)
    (hd : dec j = none) :
    probeCache dec (.store entries) key = none := by
  simp [probeCache, Cache.get, h, hd, Except.toOption, Option.join]

theorem probeCache_hit (dec : Json → Option α) (entries : List (String × Json))
    (key : String) (j : Json) (v : α) (h : lookupEntry entries key = some j)
    (hd : dec j = some v) :
    probeCache dec (.store entries) key = some v := by
  simp [probeCache, Cache.get, h, hd, Except.toOption, Option.join]

theorem lookupEntry_cons_self (entries : List (String × Json)) (key : String) (j : Json) :
    lookupEntry ((key, j) :: entries) key = some j := by
  simp [lookupEntry]

theorem cryptoPrice_fromJson_toJson (p : CryptoPrice) :
    CryptoPrice.fromJson p.toJson = some p := rfl

theorem decodeAll_map_toJson (ps : List CryptoPrice) :
    decodeAll CryptoPrice.fromJson (ps.map CryptoPrice.toJson) = some ps := by
  induction ps with
  | nil => rfl
  | cons p rest ih =>
    simp only [List.map_cons, decodeAll, cryptoPrice_fromJson_toJson, ih]

theorem decode_encode_cryptoPrices (ps : List CryptoPrice) :
    decodeCryptoPrices (encodeCryptoPrices ps) = some ps := by
  simp only [decodeCryptoPrices, encodeCryptoPrices, decodeAll_map_toJson]

theorem fetch_crypto_hit (symbols : String) (cache : CacheState) (http : HttpResult)
    (cached : List CryptoPrice)
    (h : probeCache decodeCryptoPrices cache ("crypto:" ++ symbols) = some cached) :
    fetch_crypto_data symbols cache http = ⟨.ok cached, ⟨true, false, false⟩, cache⟩ := by
  simp only [fetch_crypto_data]
  rw [h]

theorem fetch_crypto_transport (symbols e : String) (cache : CacheState)
    (h : probeCache decodeCryptoPrices cache ("crypto:" ++ symbols) = none) :
    fetch_crypto_data symbols cache (.transportError e) =
      ⟨.error (.externalApi ("CoinGecko API error: " ++ e)), ⟨true, true, false⟩, cache⟩ := by
  simp only [fetch_crypto_data]
  rw [h]

theorem fetch_crypto_badStatus (symbols : String) (cache : CacheState)
    (status : Nat) (body : Option Json)
    (h : probeCache decodeCryptoPrices cache ("crypto:" ++ symbols) = none)
    (hs : httpSuccess status = false) :
    fetch_crypto_data symbols cache (.response status body) =
      ⟨.error (.externalApi ("CoinGecko API returned status: " ++ toString status)),
       ⟨true, true, false⟩, cache⟩ := by
  simp only [fetch_crypto_data]
  rw [h]
  simp [hs]

theorem fetch_crypto_fresh (symbols : String) (cache : CacheState)
    (status : Nat) (json : Json)
    (h : probeCache decodeCryptoPrices cache ("crypto:" ++ symbols) = none)
    (hs : httpSuccess status = true) :
    fetch_crypto_data symbols cache (.response status (some json)) =
      let prices := (symbols.splitOn ",").filterMap (cryptoPriceOfSymbol json)
      let setRes := Cache.set cache ("crypto:" ++ symbols) (encodeCryptoPrices prices) 300
      ⟨.ok prices, ⟨true, true, setRes.2⟩, setRes.1⟩ := by
  simp only [fetch_crypto_data]
  rw [h]
  simp [hs]

theorem fetch_weather_hit (k city : String) (cache : CacheState) (http : HttpResult)
    (cached : WeatherData)
    (h : probeCache WeatherData.fromJson cache ("weather:" ++ city) = some cached) :
    fetch_weather_data (some k) city cache http = ⟨.ok cached, ⟨true, false, false⟩, cache⟩ := by
  simp only [fetch_weather_data]
  rw [h]

theorem fetch_weather_transport (k city e : String) (cache : CacheState)
    (h : probeCache WeatherData.fromJson cache ("weather:" ++ city) = none) :
    fetch_weather_data (some k) city cache (.transportError e) =
      ⟨.error (.externalApi ("OpenWeather API error: " ++ e)), ⟨true, true, false⟩, cache⟩ := by
  simp only [fetch_weather_data]
  rw [h]

theorem fetch_weather_badStatus (k city : String) (cache : CacheState)
    (status : Nat) (body : Option Json)
    (h : probeCache WeatherData.fromJson cache ("weather:" ++ city) = none)
    (hs : httpSuccess status = false) :
    fetch_weather_data (some k) city cache (.response status body) =
      ⟨.error (.externalApi ("OpenWeather API returned status: " ++ toString status)),
       ⟨true, true, false⟩, cache⟩ := by
  simp only [fetch_weather_data]
  rw [h]
  simp [hs]

theorem fetch_weather_fresh (k city : String) (cache : CacheState)
    (status : Nat) (json : Json)
    (h : probeCache WeatherData.fromJson cache ("weather:" ++ city) = none)
    (hs : httpSuccess status = true) :
    fetch_weather_data (some k) city cache (.response status (some json)) =
      let setRes := Cache.set cache ("weather:" ++ city) (buildWeatherData city json).toJson 600
      ⟨.ok (buildWeatherData city json), ⟨true, true, setRes.2⟩, setRes.1⟩ := by
  simp only [fetch_weather_data]
  rw [h]
  simp [hs]

theorem fetch_news_fresh (k topic : String) (cache : CacheState)
    (status : Nat) (json : Json)
    (h : probeCache decodeNewsArticles cache ("news:" ++ topic) = none)
    (hs : httpSuccess status = true) :
    fetch_news_data (some k) topic cache (.response status (some json)) =
      let articles := ((json.index "articles").asArray.getD []).map newsArticleOfJson
      let setRes := Cache.set cache ("news:" ++ topic) (encodeNewsArticles articles) 900
      ⟨.ok articles, ⟨true, true, setRes.2⟩, setRes.1⟩ := by
  simp only [fetch_news_data]
  rw [h]
  simp [hs]

theorem fetch_crypto_missPath (symbols : String) (c1 c2 : CacheState) (http : HttpResult)
    (h1 : probeCache decodeCryptoPrices c1 ("crypto:" ++ symbols) = none)
    (h2 : probeCache decodeCryptoPrices c2 ("crypto:" ++ symbols) = none) :
    (fetch_crypto_data symbols c1 http).result = (fetch_crypto_data symbols c2 http).result ∧
    (fetch_crypto_data symbols c1 http).trace.fetched = true := by
  simp only [fetch_crypto_data]
  rw [h1, h2]
  cases http with
  | transportError e => exact ⟨rfl, rfl⟩
  | response status body =>
    cases hb : httpSuccess status with
    | false => simp only [hb]; exact ⟨rfl, rfl⟩
    | true =>
      simp only [hb]
      cases body with
      | none => exact ⟨rfl, rfl⟩
      | some json => exact ⟨rfl, rfl⟩

theorem fetch_crypto_error_externalApi (symbols : String) (cache : CacheState)
    (http : HttpResult) (e : AppError)
    (h : (fetch_crypto_data symbols cache http).result = .error e) :
    ∃ msg, e = .externalApi msg := by
  revert h
  simp only [fetch_crypto_data]
  cases hp : probeCache decodeCryptoPrices cache ("crypto:" ++ symbols) with
  | some cached => intro h; exact Except.noConfusion h
  | none =>
    cases http with
    | transportError msg =>
      intro h
      injection h with h2
      exact ⟨_, h2.symm⟩
    | response status body =>
      cases hb : httpSuccess status with
      | false =>
        simp only [hb]
        intro h
        injection h with h2
        exact ⟨_, h2.symm⟩
      | true =>
        simp only [hb]
        cases body with
        | none =>
          intro h
          injection h with h2
          exact ⟨_, h2.symm⟩
        | some json => intro h; exact Except.noConfusion h

theorem cryptoPriceOfSymbol_change (json : Json) (s : String) (p : CryptoPrice)
    (h : cryptoPriceOfSymbol json s = some p) :
    p.change_24h = p.change_percentage_24h := by
  simp only [cryptoPriceOfSymbol] at h
  cases ho : ((json.index s.toLower).asObject) with
  | none => rw [ho] at h; exact Option.noConfusion h
  | some data =>
    rw [ho] at h
    injection h with h2
    subst h2
    rfl

theorem cryptoPriceOfSymbol_name (json : Json) (s : String) (p : CryptoPrice)
    (h : cryptoPriceOfSymbol json s = some p) : p.name = s := by
  simp only [cryptoPriceOfSymbol] at h
  cases ho : ((json.index s.toLower).asObject) with
  | none => rw [ho] at h; exact Option.noConfusion h
  | some data =>
    rw [ho] at h
    injection h with h2
    subst h2
    rfl

theorem cryptoPriceOfSymbol_isSome (json : Json) (s : String) :
    (cryptoPriceOfSymbol json s).isSome = ((json.index s.toLower).asObject).isSome := by
  simp only [cryptoPriceOfSymbol]
  cases ((json.index s.toLower).asObject) <;> rfl

theorem filterMap_name_eq_filter (json : Json) (l : List String) :
    (l.filterMap (cryptoPriceOfSymbol json)).map CryptoPrice.name =
      l.filter (fun s => ((json.index s.toLower).asObject).isSome) := by
  induction l with
  | nil => rfl
  | cons s rest ih =>
    cases ho : cryptoPriceOfSymbol json s with
    | none =>
      have hnone : ((json.index s.toLower).asObject).isSome = false := by
        rw [← cryptoPriceOfSymbol_isSome, ho]; rfl
      simp [List.filterMap_cons, ho, List.filter_cons, hnone, ih]
    | some p =>
      have hsome : ((json.index s.toLower).asObject).isSome = true := by
        rw [← cryptoPriceOfSymbol_isSome, ho]; rfl
      simp [List.filterMap_cons, ho, List.filter_cons, hsome, ih,
            cryptoPriceOfSymbol_name json s p ho]

theorem filterMap_change_eq (json : Json) (l : List String) (p : CryptoPrice)
    (hp : p ∈ l.filterMap (cryptoPriceOfSymbol json)) :
    p.change_24h = p.change_percentage_24h := by
  rcases List.mem_filterMap.mp hp with ⟨s, _, h⟩
  exact cryptoPriceOfSymbol_change json s p h

/-! ## Claim theorems -/

/-- C1 counterexample: a token issued at time 1000 carries exp = 605800
(issued-at plus 7 days), yet it is still accepted at time 605801, which
strictly exceeds issued-at plus 7 days, because Validation::default()
keeps a 60-second expiry leeway. -/
theorem token_accepted_past_seven_days :
    1000 + 7 * 86400 < 605801 ∧
    validate_token (generate_token "u" "e" "s" 1000) "s" 605801 =
      .ok { sub := "u", email := "e", exp := 605800, iat := 1000 } :=
  ⟨by norm_num, rfl⟩

/-- C1 (amended): verifying a token immediately after issuance under the
issuing secret succeeds and returns the same subject (the issuer stamps
iat = now and exp = now + 7 days); verification fails once the current
time exceeds issued-at plus 7 days plus the 60-second default leeway of
jsonwebtoken Validation. -/
theorem token_issue_verify_expiry (user_id email secret : String) (now t : Nat) :
    validate_token (generate_token user_id email secret now) secret now =
      .ok { sub := user_id, email := email, exp := now + 7 * 86400, iat := now } ∧
    (now + 7 * 86400 + jwtDefaultLeeway < t →
      validate_token (generate_token user_id email secret now) secret t =
        .error (.auth ("Invalid token: " ++ JwtErrorKind.expiredSignature.display))) := by
  constructor
  · simp only [validate_token, jwt_decode, generate_token, eq_self_iff_true, if_true]
    rw [if_neg (by unfold secondsIn7Days jwtDefaultLeeway; omega)]
    rfl
  · intro ht
    simp only [validate_token, jwt_decode, generate_token, eq_self_iff_true, if_true]
    rw [if_pos (by unfold secondsIn7Days; unfold jwtDefaultLeeway at ht ⊢; omega)]

/-- C1 witness: a concrete token issued at time 0 verifies at time 0 with
its subject intact and is rejected at time 604861 = 7 days + 61 seconds. -/
theorem token_issue_verify_expiry_w :
    validate_token (generate_token "u" "e" "s" 0) "s" 0 =
      .ok { sub := "u", email := "e", exp := 0 + 7 * 86400, iat := 0 } ∧
    validate_token (generate_token "u" "e" "s" 0) "s" 604861 =
      .error (.auth ("Invalid token: " ++ JwtErrorKind.expiredSignature.display)) :=
  ⟨(token_issue_verify_expiry "u" "e" "s" 0 604861).1,
   (token_issue_verify_expiry "u" "e" "s" 0 604861).2 (by norm_num [jwtDefaultLeeway])⟩

/-- C2: a well-formed token signed under one secret always fails
verification under any distinct secret, returning an AuthError, regardless
of its claim content. -/
theorem cross_secret_verification_fails (claims : Claims) (s1 s2 : String) (now : Nat)
    (h : s1 ≠ s2) :
    validate_token (.signed claims s1) s2 now =
      .error (.auth ("Invalid token: " ++ JwtErrorKind.invalidSignature.display)) := by
  simp only [validate_token, jwt_decode]
  rw [if_neg h]

/-- C2 witness: a concrete token signed under secret a is rejected under
secret b. -/
theorem cross_secret_verification_fails_w :
    validate_token (.signed { sub := "u", email := "e", exp := 604800, iat := 0 } "a") "b" 0 =
      .error (.auth ("Invalid token: " ++ JwtErrorKind.invalidSignature.display)) :=
  cross_secret_verification_fails { sub := "u", email := "e", exp := 604800, iat := 0 }
    "a" "b" 0 (by decide)

/-- C6: verifying a password against its own hash yields Ok true, and
verifying any distinct password against that hash yields Ok false — a
boolean non-match, not an error. -/
theorem password_verify_roundtrip (p p1 p2 : String) (salt salt2 : Nat) (h : p1 ≠ p2) :
    verify_password p (.parsed (hash_password p salt)) = .ok true ∧
    verify_password p1 (.parsed (hash_password p2 salt2)) = .ok false := by
  constructor
  · simp [verify_password, hash_password, argon2Digest]
  · simp [verify_password, hash_password, argon2Digest, h]

/-- C6 witness: concrete passwords hunter2 and hunter3. -/
theorem password_verify_roundtrip_w :
    verify_password "hunter2" (.parsed (hash_password "hunter2" 5)) = .ok true ∧
    verify_password "hunter2" (.parsed (hash_password "hunter3" 9)) = .ok false :=
  password_verify_roundtrip "hunter2" "hunter2" "hunter3" 5 9 (by decide)

/-- C7 counterexample: an expired-token failure and a wrong-secret failure
both pass through AppError::Auth with the rendered jsonwebtoken error, and
their HTTP responses differ in body, so the two failures are
distinguishable by the end user. -/
theorem auth_failure_responses_differ :
    validate_token (.signed { sub := "u", email := "e", exp := 100, iat := 0 } "s") "s" 10000 =
      .error (.auth ("Invalid token: " ++ JwtErrorKind.expiredSignature.display)) ∧
    validate_token (.signed { sub := "u", email := "e", exp := 100, iat := 0 } "x") "s" 10000 =
      .error (.auth ("Invalid token: " ++ JwtErrorKind.invalidSignature.display)) ∧
    (AppError.auth ("Invalid token: " ++ JwtErrorKind.expiredSignature.display)).into_response ≠
      (AppError.auth ("Invalid token: " ++ JwtErrorKind.invalidSignature.display)).into_response :=
  ⟨rfl, rfl, by decide⟩

/-- C7 (amended): every token-verification failure is rendered with the
uniform HTTP status 401, but the response body embeds the specific
jsonwebtoken error description, so the body reveals which check failed. -/
theorem auth_failure_status_uniform (tok : TokenInput) (secret : String) (now : Nat)
    (e : AppError) (h : validate_token tok secret now = .error e) :
    e.into_response.1 = 401 ∧
    ∃ kind : JwtErrorKind, e = .auth ("Invalid token: " ++ kind.display) := by
  unfold validate_token at h
  cases hd : jwt_decode tok secret now with
  | ok c => rw [hd] at h; cases h
  | error k =>
    rw [hd] at h
    injection h with h2
    subst h2
    exact ⟨rfl, k, rfl⟩

/-- C7 witness: a structurally malformed token yields status 401 and a body
carrying the InvalidToken description. -/
theorem auth_failure_status_uniform_w :
    (AppError.auth ("Invalid token: " ++ JwtErrorKind.invalidToken.display)).into_response.1 = 401 ∧
    ∃ kind : JwtErrorKind,
      AppError.auth ("Invalid token: " ++ JwtErrorKind.invalidToken.display) =
        .auth ("Invalid token: " ++ kind.display) :=
  auth_failure_status_uniform (.malformed "not.a.jwt") "s" 0 _ rfl

/-- C3: fail-open. For the crypto widget, an unreachable store and a stored
value that fails to deserialize are both errors of Cache::get, yet the
handler result equals the plain cache-miss result, the live outbound fetch
is performed, and any error the handler does return is an upstream
ExternalApiError, never a cache error. -/
theorem cache_fail_open (symbols : String) (entries : List (String × Json))
    (http : HttpResult) (j : Json)
    (hmiss : lookupEntry entries ("crypto:" ++ symbols) = none)
    (hbad : decodeCryptoPrices j = none) :
    Cache.get decodeCryptoPrices .unreachable ("crypto:" ++ symbols) = .error .connection ∧
    Cache.get decodeCryptoPrices (.store (("crypto:" ++ symbols, j) :: entries))
        ("crypto:" ++ symbols) = .error .deserialization ∧
    (fetch_crypto_data symbols .unreachable http).result =
      (fetch_crypto_data symbols (.store entries) http).result ∧
    (fetch_crypto_data symbols (.store (("crypto:" ++ symbols, j) :: entries)) http).result =
      (fetch_crypto_data symbols (.store entries) http).result ∧
    (fetch_crypto_data symbols .unreachable http).trace.fetched = true ∧
    (fetch_crypto_data symbols (.store (("crypto:" ++ symbols, j) :: entries)) http).trace.fetched
      = true ∧
    (∀ e, (fetch_crypto_data symbols .unreachable http).result = .error e →
      ∃ msg, e = .externalApi msg) := by
  have hp0 : probeCache decodeCryptoPrices .unreachable ("crypto:" ++ symbols) = none :=
    probeCache_unreachable _ _
  have hp1 : probeCache decodeCryptoPrices (.store entries) ("crypto:" ++ symbols) = none :=
    probeCache_miss _ _ _ hmiss
  have hp2 : probeCache decodeCryptoPrices
      (.store (("crypto:" ++ symbols, j) :: entries)) ("crypto:" ++ symbols) = none :=
    probeCache_corrupt _ _ _ j (lookupEntry_cons_self entries _ j) hbad
  refine ⟨rfl, ?_, (fetch_crypto_missPath symbols _ _ http hp0 hp1).1,
    (fetch_crypto_missPath symbols _ _ http hp2 hp1).1,
    (fetch_crypto_missPath symbols _ _ http hp0 hp1).2,
    (fetch_crypto_missPath symbols _ _ http hp2 hp1).2,
    fun e he => fetch_crypto_error_externalApi symbols _ http e he⟩
  simp [Cache.get, lookupEntry_cons_self, hbad]

/-- C3 witness: a concrete null cache entry (which fails to deserialize as a
Vec of CryptoPrice) and an unreachable store, against a successful upstream
response. -/
theorem cache_fail_open_w :
    Cache.get decodeCryptoPrices .unreachable "crypto:BTC" = .error .connection ∧
    Cache.get decodeCryptoPrices (.store [("crypto:BTC", Json.null)]) "crypto:BTC" =
      .error .deserialization ∧
    (fetch_crypto_data "BTC" .unreachable (.response 200 (some (.obj [])))).result =
      (fetch_crypto_data "BTC" (.store []) (.response 200 (some (.obj [])))).result ∧
    (fetch_crypto_data "BTC" (.store [("crypto:BTC", Json.null)])
        (.response 200 (some (.obj [])))).result =
      (fetch_crypto_data "BTC" (.store []) (.response 200 (some (.obj [])))).result ∧
    (fetch_crypto_data "BTC" .unreachable (.response 200 (some (.obj [])))).trace.fetched = true ∧
    (fetch_crypto_data "BTC" (.store [("crypto:BTC", Json.null)])
        (.response 200 (some (.obj [])))).trace.fetched = true ∧
    (∀ e, (fetch_crypto_data "BTC" .unreachable (.response 200 (some (.obj [])))).result =
        .error e → ∃ msg, e = .externalApi msg) :=
  cache_fail_open "BTC" [] (.response 200 (some (.obj []))) Json.null rfl rfl

/-- C4: cache-aside idempotence. A deserializable cached entry is returned
immediately with no outbound call and no cache write (weather shown); and
for the crypto widget two sequential identical queries starting from a
cache miss trigger exactly one outbound fetch, the second being served
from cache with content identical to the first and leaving the cache
unchanged. -/
theorem cache_aside_idempotence (symbols city k : String)
    (entries wentries : List (String × Json)) (status : Nat) (json j : Json)
    (w : WeatherData) (http2 : HttpResult)
    (hmiss : lookupEntry entries ("crypto:" ++ symbols) = none)
    (hs : httpSuccess status = true)
    (hwhit : lookupEntry wentries ("weather:" ++ city) = some j)
    (hwdec : WeatherData.fromJson j = some w) :
    fetch_weather_data (some k) city (.store wentries) http2 =
      ⟨.ok w, ⟨true, false, false⟩, .store wentries⟩ ∧
    (fetch_crypto_data symbols (.store entries) (.response status (some json))).trace.fetched
      = true ∧
    ∃ P, (fetch_crypto_data symbols (.store entries) (.response status (some json))).result
        = .ok P ∧
      fetch_crypto_data symbols
          (fetch_crypto_data symbols (.store entries) (.response status (some json))).cache http2 =
        ⟨.ok P, ⟨true, false, false⟩,
         (fetch_crypto_data symbols (.store entries) (.response status (some json))).cache⟩ := by
  have hp1 : probeCache decodeCryptoPrices (.store entries) ("crypto:" ++ symbols) = none :=
    probeCache_miss _ _ _ hmiss
  have hrun1 := fetch_crypto_fresh symbols (.store entries) status json hp1 hs
  refine ⟨fetch_weather_hit k city _ http2 w
    (probeCache_hit _ _ _ j w hwhit hwdec), ?_, ?_⟩
  · rw [hrun1]
  · refine ⟨(symbols.splitOn ",").filterMap (cryptoPriceOfSymbol json), ?_, ?_⟩
    · rw [hrun1]
    · rw [hrun1]
      exact fetch_crypto_hit symbols _ http2 _
        (probeCache_hit _ _ _ _ _ (lookupEntry_cons_self entries _ _)
          (decode_encode_cryptoPrices _))

/-- C4 witness: a concrete weather cache hit and a concrete crypto
miss-then-hit pair of identical queries. -/
theorem cache_aside_idempotence_w :
    fetch_weather_data (some "k") "paris"
        (.store [("weather:paris",
          (WeatherData.mk 1 2 3 "clear" "01d" "paris").toJson)]) (.transportError "down") =
      ⟨.ok (WeatherData.mk 1 2 3 "clear" "01d" "paris"), ⟨true, false, false⟩,
       .store [("weather:paris", (WeatherData.mk 1 2 3 "clear" "01d" "paris").toJson)]⟩ ∧
    (fetch_crypto_data "BTC" (.store [])
        (.response 200 (some (.obj [("btc",
          .obj [("usd", .num 2), ("usd_24h_change", .num 1)])])))).trace.fetched = true ∧
    ∃ P, (fetch_crypto_data "BTC" (.store [])
        (.response 200 (some (.obj [("btc",
          .obj [("usd", .num 2), ("usd_24h_change", .num 1)])])))).result = .ok P ∧
      fetch_crypto_data "BTC"
          (fetch_crypto_data "BTC" (.store [])
            (.response 200 (some (.obj [("btc",
              .obj [("usd", .num 2), ("usd_24h_change", .num 1)])])))).cache
          (.transportError "down") =
        ⟨.ok P, ⟨true, false, false⟩,
         (fetch_crypto_data "BTC" (.store [])
           (.response 200 (some (.obj [("btc",
             .obj [("usd", .num 2), ("usd_24h_change", .num 1)])])))).cache⟩ :=
  cache_aside_idempotence "BTC" "paris" "k" [] [("weather:paris",
      (WeatherData.mk 1 2 3 "clear" "01d" "paris").toJson)] 200
    (.obj [("btc", .obj [("usd", .num 2), ("usd_24h_change", .num 1)])])
    ((WeatherData.mk 1 2 3 "clear" "01d" "paris").toJson)
    (WeatherData.mk 1 2 3 "clear" "01d" "paris") (.transportError "down")
    rfl rfl rfl rfl

/-- C5: on a cache miss, a transport failure or a non-2xx upstream status
fails the whole request with ExternalApiError, performs no cache write, and
leaves the cache state unchanged (shown for the crypto and weather
widgets). -/
theorem fetch_failure_not_cached (symbols city k e : String)
    (entries wentries : List (String × Json)) (status : Nat) (body : Option Json)
    (hmiss : lookupEntry entries ("crypto:" ++ symbols) = none)
    (hwmiss : lookupEntry wentries ("weather:" ++ city) = none)
    (hbad : httpSuccess status = false) :
    (∃ msg, fetch_crypto_data symbols (.store entries) (.transportError e) =
      ⟨.error (.externalApi msg), ⟨true, true, false⟩, .store entries⟩) ∧
    (∃ msg, fetch_crypto_data symbols (.store entries) (.response status body) =
      ⟨.error (.externalApi msg), ⟨true, true, false⟩, .store entries⟩) ∧
    (∃ msg, fetch_weather_data (some k) city (.store wentries) (.transportError e) =
      ⟨.error (.externalApi msg), ⟨true, true, false⟩, .store wentries⟩) ∧
    (∃ msg, fetch_weather_data (some k) city (.store wentries) (.response status body) =
      ⟨.error (.externalApi msg), ⟨true, true, false⟩, .store wentries⟩) := by
  have hp : probeCache decodeCryptoPrices (.store entries) ("crypto:" ++ symbols) = none :=
    probeCache_miss _ _ _ hmiss
  have hw : probeCache WeatherData.fromJson (.store wentries) ("weather:" ++ city) = none :=
    probeCache_miss _ _ _ hwmiss
  exact ⟨⟨_, fetch_crypto_transport symbols e _ hp⟩,
    ⟨_, fetch_crypto_badStatus symbols _ status body hp hbad⟩,
    ⟨_, fetch_weather_transport k city e _ hw⟩,
    ⟨_, fetch_weather_badStatus k city _ status body hw hbad⟩⟩

/-- C5 witness: a concrete transport failure and a concrete 503 status
against empty caches. -/
theorem fetch_failure_not_cached_w :
    (∃ msg, fetch_crypto_data "BTC" (.store []) (.transportError "timeout") =
      ⟨.error (.externalApi msg), ⟨true, true, false⟩, .store []⟩) ∧
    (∃ msg, fetch_crypto_data "BTC" (.store []) (.response 503 none) =
      ⟨.error (.externalApi msg), ⟨true, true, false⟩, .store []⟩) ∧
    (∃ msg, fetch_weather_data (some "k") "paris" (.store []) (.transportError "timeout") =
      ⟨.error (.externalApi msg), ⟨true, true, false⟩, .store []⟩) ∧
    (∃ msg, fetch_weather_data (some "k") "paris" (.store []) (.response 503 none) =
      ⟨.error (.externalApi msg), ⟨true, true, false⟩, .store []⟩) :=
  fetch_failure_not_cached "BTC" "paris" "k" "timeout" [] [] 503 none rfl rfl rfl

/-- C8 counterexample: the GitHub widget does not degrade gracefully — a
successful 200 response whose body is valid JSON but whose event object
lacks required fields fails the whole request with ExternalApiError
instead of mapping the fields to defaults. -/
theorem github_strict_parse_failure :
    httpSuccess 200 = true ∧
    (fetch_github_data none "octocat" (.store [])
        (.response 200 (some (.arr [.obj [("id", .str "1")]])))).result =
      .error (.externalApi "Failed to parse GitHub response: missing or malformed field") :=
  ⟨rfl, rfl⟩

/-- C8 (amended): the weather, news (and crypto) widgets map absent or
malformed payload fields to safe defaults — any JSON body on a 2xx
response yields an Ok result, and an empty object produces the zero/empty
defaults — while the GitHub widget parses strictly and fails the request
on absent or malformed fields. -/
theorem partial_payload_defaults (k city topic : String)
    (wentries nentries : List (String × Json)) (status : Nat) (json : Json)
    (hwmiss : lookupEntry wentries ("weather:" ++ city) = none)
    (hnmiss : lookupEntry nentries ("news:" ++ topic) = none)
    (hs : httpSuccess status = true) :
    (fetch_weather_data (some k) city (.store wentries) (.response status (some json))).result =
      .ok (buildWeatherData city json) ∧
    (∃ arts, (fetch_news_data (some k) topic (.store nentries)
        (.response status (some json))).result = .ok arts) ∧
    buildWeatherData city (.obj []) =
      { temp := 0, feels_like := 0, humidity := 0, description := "", icon := "",
        city_name := city } ∧
    newsArticleOfJson (.obj []) =
      { title := "", description := none, url := "", source := "Unknown",
        published_at := "", url_to_image := none } := by
  have hw : probeCache WeatherData.fromJson (.store wentries) ("weather:" ++ city) = none :=
    probeCache_miss _ _ _ hwmiss
  have hn : probeCache decodeNewsArticles (.store nentries) ("news:" ++ topic) = none :=
    probeCache_miss _ _ _ hnmiss
  refine ⟨?_, ⟨((json.index "articles").asArray.getD []).map newsArticleOfJson, ?_⟩, rfl, rfl⟩
  · rw [fetch_weather_fresh k city _ status json hw hs]
  · rw [fetch_news_fresh k topic _ status json hn hs]

/-- C8 witness: concrete empty caches, a 200 status and an empty-object
body. -/
theorem partial_payload_defaults_w :
    (fetch_weather_data (some "k") "paris" (.store [])
        (.response 200 (some (.obj [])))).result = .ok (buildWeatherData "paris" (.obj [])) ∧
    (∃ arts, (fetch_news_data (some "k") "tech" (.store [])
        (.response 200 (some (.obj [])))).result = .ok arts) ∧
    buildWeatherData "paris" (.obj []) =
      { temp := 0, feels_like := 0, humidity := 0, description := "", icon := "",
        city_name := "paris" } ∧
    newsArticleOfJson (.obj []) =
      { title := "", description := none, url := "", source := "Unknown",
        published_at := "", url_to_image := none } :=
  partial_payload_defaults "k" "paris" "tech" [] [] 200 (.obj []) rfl rfl rfl

/-- C9: for the weather and news widgets, a missing provider API key fails
every request with InternalError before the cache is consulted: for every
cache state, even one holding a valid entry for the query, the cache is
never probed and nothing is served from it. -/
theorem missing_api_key_fails_before_cache (city topic : String)
    (wcache ncache : CacheState) (http http2 : HttpResult) :
    fetch_weather_data none city wcache http =
      ⟨.error (.internal "OpenWeather API key not configured"), ⟨false, false, false⟩, wcache⟩ ∧
    fetch_news_data none topic ncache http2 =
      ⟨.error (.internal "NewsAPI key not configured"), ⟨false, false, false⟩, ncache⟩ :=
  ⟨rfl, rfl⟩

/-- C10: in a freshly fetched crypto result, every price entry has
change_24h equal to change_percentage_24h (both read the one upstream
field usd_24h_change), and the named entries are exactly the queried
symbols whose lowercased id appears as an object in the upstream response
— absent symbols are omitted, not defaulted. -/
theorem crypto_change_fields_and_omission (symbols : String)
    (entries : List (String × Json)) (status : Nat) (json : Json)
    (hmiss : lookupEntry entries ("crypto:" ++ symbols) = none)
    (hs : httpSuccess status = true) :
    ∃ P, (fetch_crypto_data symbols (.store entries) (.response status (some json))).result
        = .ok P ∧
      (∀ p ∈ P, p.change_24h = p.change_percentage_24h) ∧
      P.map CryptoPrice.name =
        (symbols.splitOn ",").filter (fun s => ((json.index s.toLower).asObject).isSome) := by
  have hp : probeCache decodeCryptoPrices (.store entries) ("crypto:" ++ symbols) = none :=
    probeCache_miss _ _ _ hmiss
  refine ⟨(symbols.splitOn ",").filterMap (cryptoPriceOfSymbol json), ?_,
    fun p hp2 => filterMap_change_eq json _ p hp2, filterMap_name_eq_filter json _⟩
  rw [fetch_crypto_fresh symbols _ status json hp hs]

/-- C10 witness: querying BTC,DOGE against a response carrying only btc
yields one entry named BTC with equal change fields, DOGE being omitted. -/
theorem crypto_change_fields_and_omission_w :
    ∃ P, (fetch_crypto_data "BTC,DOGE" (.store [])
        (.response 200 (some (.obj [("btc",
          .obj [("usd", .num 3), ("usd_24h_change", .num 7)])])))).result = .ok P ∧
      (∀ p ∈ P, p.change_24h = p.change_percentage_24h) ∧
      P.map CryptoPrice.name =
        ("BTC,DOGE".splitOn ",").filter (fun s =>
          (((Json.obj [("btc", .obj [("usd", .num 3), ("usd_24h_change", .num 7)])]).index
            s.toLower).asObject).isSome) :=
  crypto_change_fields_and_omission "BTC,DOGE" [] 200
    (.obj [("btc", .obj [("usd", .num 3), ("usd_24h_change", .num 7)])]) rfl rfl

end InsightBoard
